import Mathlib

/-!
Verification of the build-step orchestration engine of
`build-samba.py` / `build-samba2.py` (samba-build-container).

The development shallowly embeds the parts of the two Python scripts the
claims are about:

* `Builder.wants` — the memoized step-execution engine (both files; the
  `build-samba2.py` variant additionally calls `prepare_env_once` while no
  step has completed yet).  Handlers are modelled as small syntax trees
  (`HProg`) whose interpretation mirrors the pull-style recursion of the
  source: a handler may request further steps before doing its own work.
  Python's unbounded recursion is modelled with a fuel parameter; a result
  of `outOfFuel` for every fuel amount corresponds to non-terminating
  recursion of the source.
* `sha256_digest` / `_sha256_digest` — the block-streaming SHA-256 digest
  functions, over a full executable SHA-256 defined on byte lists.
* `_run` and `Context.user_command` — dry-run command execution.
* the digest-annotation check inside `cmd_build_srpm` (build-samba.py).
* the source-rpm discovery in `bc_build_rpm` / `cmd_build_rpm`.
* the `--publish` port-argument loop of `_container_cmd`.
-/

namespace Samba

/-! ## Step handler programs

`Builder._steps` maps step names to handler functions; a handler calls
`ctx.build.wants(other, ctx)` for its prerequisites and then performs its
own container commands.  `HProg` captures exactly that control skeleton:
`wantsStep s k` is a nested `self.wants(s, ctx)` call (always with
`top=False`, as in every handler of the source), `act` is an observable
piece of the handler's own work, `raiseExc` an exception escaping the
handler. -/

inductive HProg where
  | done : HProg
  | act (label : String) (k : HProg) : HProg
  | raiseExc (e : String) : HProg
  | wantsStep (step : String) (k : HProg) : HProg
deriving DecidableEq, Repr

/-- Observable events of a run: `prepare` records a call of
`prepare_env_once` (build-samba2.py line 375), `enter s` records the
invocation `self._steps[step](ctx)` of step `s`'s handler body
(line 376), `act` an action performed inside a handler body. -/
inductive Event where
  | prepare : Event
  | enter (step : String) : Event
  | act (label : String) : Event
deriving DecidableEq, Repr, BEq

/-- The mutable state of a `Builder` during one run: `did_steps` is the
`self._did_steps` set (created empty per run), `trace` the instrumentation
recording what actually happened. -/
structure EngineState where
  did_steps : List String
  trace : List Event
deriving DecidableEq, Repr

/-- Static configuration of a run: the step registry `Builder._steps`,
the `--no-prereqs` CLI flag (`ctx.cli.no_prereqs`), and whether this is the
`build-samba2.py` variant of `Builder.wants` (which calls
`prepare_env_once` whenever `self._did_steps` is still empty; the
`build-samba.py` variant has no such call). -/
structure EngineCfg where
  steps : List (String × HProg)
  no_prereqs : Bool
  withPrepare : Bool

def addEvent (st : EngineState) (e : Event) : EngineState :=
  { st with trace := st.trace ++ [e] }

/-- Model of the `if not self._did_steps: prepare_env_once(ctx)` lines of
build-samba2.py `Builder.wants`; absent from build-samba.py. -/
def prepMaybe (cfg : EngineCfg) (st : EngineState) : EngineState :=
  if cfg.withPrepare && st.did_steps.isEmpty then addEvent st .prepare else st

/-- Model of `self._did_steps.add(step)` — set insertion. -/
def markDone (step : String) (st : EngineState) : EngineState :=
  if step ∈ st.did_steps then st else { st with did_steps := st.did_steps ++ [step] }

/-- Result of a step request or handler run.  `err` carries the builder
state at the moment the exception escapes (in Python the exception
propagates while the mutated `Builder` object persists); `outOfFuel`
models recursion that exceeds the fuel bound. -/
inductive RunRes where
  | ok (st : EngineState)
  | err (e : String) (st : EngineState)
  | outOfFuel
deriving DecidableEq, Repr

/-- A pending activation: either a `Builder.wants(step, ctx, top=…)` call
or the rest of a handler body being run. -/
inductive Call where
  | want (step : String) (top : Bool)
  | run (prog : HProg)
deriving DecidableEq, Repr

/-- The engine.  `engine cfg fuel (.want step top) st` mirrors
`Builder.wants` (build-samba.py lines 103-113, build-samba2.py lines
366-378):

* if `ctx.cli.no_prereqs and not top`: return (no-op);
* if `step in self._did_steps`: return (no-op);
* (build-samba2.py only) if `not self._did_steps`: `prepare_env_once(ctx)`;
* `self._steps[step](ctx)` — a missing registry entry raises `KeyError`,
  otherwise the handler body runs (recorded as an `enter` event);
* on normal return, `self._did_steps.add(step)`.

`engine cfg fuel (.run prog) st` runs a handler body, dispatching nested
`wants` calls with `top := false` exactly as every handler of the source
does.  Each recursive activation consumes one unit of fuel. -/
def engine (cfg : EngineCfg) : Nat → Call → EngineState → RunRes
  | fuel, .want step top, st =>
    if cfg.no_prereqs && !top then .ok st
    else if step ∈ st.did_steps then .ok st
    else
      let st1 := prepMaybe cfg st
      match cfg.steps.lookup step with
      | none => .err "KeyError" st1
      | some prog =>
        match fuel with
        | 0 => .outOfFuel
        | fuel' + 1 =>
          match engine cfg fuel' (.run prog) (addEvent st1 (.enter step)) with
          | .ok st2 => .ok (markDone step st2)
          | r => r
  | _, .run .done, st => .ok st
  | fuel, .run (.act a k), st =>
    match fuel with
    | 0 => .outOfFuel
    | fuel' + 1 => engine cfg fuel' (.run k) (addEvent st (.act a))
  | _, .run (.raiseExc e), st => .err e st
  | fuel, .run (.wantsStep s k), st =>
    match fuel with
    | 0 => .outOfFuel
    | fuel' + 1 =>
      match engine cfg fuel' (.want s false) st with
      | .ok st' => engine cfg fuel' (.run k) st'
      | r => r

/-- `Builder.wants(step, ctx, top=top)` from an engine state.  (The
source's `force` keyword parameter is accepted and never read by either
variant, so it is omitted.) -/
def wants (cfg : EngineCfg) (fuel : Nat) (step : String) (top : Bool)
    (st : EngineState) : RunRes :=
  engine cfg fuel (.want step top) st

/-- Number of `prepare_env_once` calls recorded in a trace. -/
def countPrepare (tr : List Event) : Nat := tr.count .prepare

/-- Number of handler-body invocations of `step` recorded in a trace. -/
def countEnter (step : String) (tr : List Event) : Nat := tr.count (.enter step)

/-- The builder state a result carries, when it carries one. -/
def resState : RunRes → Option EngineState
  | .ok st => some st
  | .err _ st => some st
  | .outOfFuel => none

end Samba

namespace Samba

/-! ## Facts about `Builder.wants` -/

theorem did_addEvent (st : EngineState) (e : Event) :
    (addEvent st e).did_steps = st.did_steps := rfl

theorem trace_markDone (s : String) (st : EngineState) :
    (markDone s st).trace = st.trace := by
  unfold markDone; split <;> rfl

theorem mem_markDone (s : String) (st : EngineState) :
    s ∈ (markDone s st).did_steps := by
  unfold markDone; split
  · assumption
  · simp


theorem countPrepare_enter (st : EngineState) (s : String) :
    countPrepare (addEvent st (.enter s)).trace = countPrepare st.trace := by
  have h0 : List.count Event.prepare [Event.enter s] = 0 := rfl
  simp [countPrepare, addEvent, List.count_append, h0]

theorem countPrepare_act (st : EngineState) (a : String) :
    countPrepare (addEvent st (.act a)).trace = countPrepare st.trace := by
  have h0 : List.count Event.prepare [Event.act a] = 0 := rfl
  simp [countPrepare, addEvent, List.count_append, h0]

theorem did_markDone_ne (s : String) (st : EngineState) (h : st.did_steps ≠ []) :
    (markDone s st).did_steps ≠ [] := by
  unfold markDone; split
  · exact h
  · simp

/-! Branch equations of `engine`, mirroring the source lines of
`Builder.wants` and of a handler body. -/

theorem engine_run_done (cfg : EngineCfg) (fuel : Nat) (st : EngineState) :
    engine cfg fuel (.run .done) st = .ok st := by cases fuel <;> rfl

theorem engine_run_raise (cfg : EngineCfg) (fuel : Nat) (e : String)
    (st : EngineState) :
    engine cfg fuel (.run (.raiseExc e)) st = .err e st := by cases fuel <;> rfl

theorem engine_run_act (cfg : EngineCfg) (n : Nat) (a : String) (k : HProg)
    (st : EngineState) :
    engine cfg (n+1) (.run (.act a k)) st
      = engine cfg n (.run k) (addEvent st (.act a)) := rfl

theorem engine_run_wantsStep (cfg : EngineCfg) (n : Nat) (s : String) (k : HProg)
    (st : EngineState) :
    engine cfg (n+1) (.run (.wantsStep s k)) st =
      (match engine cfg n (.want s false) st with
       | .ok st1 => engine cfg n (.run k) st1
       | r => r) := rfl

theorem engine_want_unfold (cfg : EngineCfg) (fuel : Nat) (s : String)
    (top : Bool) (st : EngineState) :
    engine cfg fuel (.want s top) st =
      (if cfg.no_prereqs && !top then .ok st
       else if s ∈ st.did_steps then .ok st
       else
         match cfg.steps.lookup s with
         | none => .err "KeyError" (prepMaybe cfg st)
         | some prog =>
           match fuel with
           | 0 => .outOfFuel
           | n + 1 =>
             match engine cfg n (.run prog) (addEvent (prepMaybe cfg st) (.enter s)) with
             | .ok st2 => .ok (markDone s st2)
             | r => r) := by simp only [engine]

/-- Once any step has completed (`self._did_steps` nonempty), no execution
path of the engine ever calls `prepare_env_once` again, and the done-set
stays nonempty. -/
theorem prepare_stable (cfg : EngineCfg) :
    ∀ (fuel : Nat) (call : Call) (st st' : EngineState),
      resState (engine cfg fuel call st) = some st' → st.did_steps ≠ [] →
      countPrepare st'.trace = countPrepare st.trace ∧ st'.did_steps ≠ [] := by
  intro fuel
  induction fuel with
  | zero =>
    intro call st st' h hne
    have hp : prepMaybe cfg st = st := by
      unfold prepMaybe
      simp [List.isEmpty_iff, hne]
    match call with
    | .want step top =>
      rw [engine_want_unfold, hp] at h
      split at h
      · simp only [resState, Option.some.injEq] at h; subst h; exact ⟨rfl, hne⟩
      · split at h
        · simp only [resState, Option.some.injEq] at h; subst h; exact ⟨rfl, hne⟩
        · split at h
          · simp only [resState, Option.some.injEq] at h; subst h; exact ⟨rfl, hne⟩
          · simp only [resState] at h; exact Option.noConfusion h
    | .run .done =>
      rw [engine_run_done] at h
      simp only [resState, Option.some.injEq] at h; subst h; exact ⟨rfl, hne⟩
    | .run (.act a k) =>
      simp only [engine, resState] at h; exact Option.noConfusion h
    | .run (.raiseExc e) =>
      rw [engine_run_raise] at h
      simp only [resState, Option.some.injEq] at h; subst h; exact ⟨rfl, hne⟩
    | .run (.wantsStep s k) =>
      simp only [engine, resState] at h; exact Option.noConfusion h
  | succ n ih =>
    intro call st st' h hne
    have hp : prepMaybe cfg st = st := by
      unfold prepMaybe
      simp [List.isEmpty_iff, hne]
    match call with
    | .want step top =>
      rw [engine_want_unfold, hp] at h
      split at h
      · simp only [resState, Option.some.injEq] at h; subst h; exact ⟨rfl, hne⟩
      · split at h
        · simp only [resState, Option.some.injEq] at h; subst h; exact ⟨rfl, hne⟩
        · split at h
          · simp only [resState, Option.some.injEq] at h; subst h; exact ⟨rfl, hne⟩
          · rename_i prog hl
            dsimp only at h
            cases hE : engine cfg n (.run prog) (addEvent st (.enter step)) with
            | ok st2 =>
              rw [hE] at h
              simp only [resState, Option.some.injEq] at h; subst h
              have hrec := ih (.run prog) (addEvent st (.enter step)) st2
                  (by rw [hE]; rfl) hne
              constructor
              · rw [trace_markDone]
                exact hrec.1.trans (countPrepare_enter st step)
              · exact did_markDone_ne step st2 hrec.2
            | err e st2 =>
              rw [hE] at h
              simp only [resState, Option.some.injEq] at h; subst h
              have hrec := ih (.run prog) (addEvent st (.enter step)) st2
                  (by rw [hE]; rfl) hne
              exact ⟨hrec.1.trans (countPrepare_enter st step), hrec.2⟩
            | outOfFuel =>
              rw [hE] at h
              simp only [resState] at h
              exact Option.noConfusion h
    | .run .done =>
      rw [engine_run_done] at h
      simp only [resState, Option.some.injEq] at h; subst h; exact ⟨rfl, hne⟩
    | .run (.act a k) =>
      rw [engine_run_act] at h
      have hrec := ih (.run k) (addEvent st (.act a)) st' h hne
      exact ⟨hrec.1.trans (countPrepare_act st a), hrec.2⟩
    | .run (.raiseExc e) =>
      rw [engine_run_raise] at h
      simp only [resState, Option.some.injEq] at h; subst h; exact ⟨rfl, hne⟩
    | .run (.wantsStep s k) =>
      rw [engine_run_wantsStep] at h
      cases hE : engine cfg n (.want s false) st with
      | ok stm =>
        rw [hE] at h
        have h1 := ih (.want s false) st stm (by rw [hE]; rfl) hne
        have h2 := ih (.run k) stm st' h h1.2
        exact ⟨h2.1.trans h1.1, h2.2⟩
      | err e stm =>
        rw [hE] at h
        simp only [resState, Option.some.injEq] at h; subst h
        exact ih (.want s false) st stm (by rw [hE]; rfl) hne
      | outOfFuel =>
        rw [hE] at h
        simp only [resState] at h
        exact Option.noConfusion h

end Samba

namespace Samba

theorem did_prepMaybe (cfg : EngineCfg) (st : EngineState) :
    (prepMaybe cfg st).did_steps = st.did_steps := by
  unfold prepMaybe; split <;> rfl

/-! ## C1 — requesting a step twice runs its handler body once -/

/-- C1: with prerequisites enabled, a successful `Builder.wants` request of
step `s` leaves `s` in the run's set of completed steps, and every later
request of `s` in the same run (any fuel, top-level or not) is a no-op
returning the state unchanged — in particular the trace, which records
every handler-body invocation, does not grow, so the handler body is not
executed again: across both requests it ran exactly as often as the first
request ran it (once, when `s` was not yet done). -/
theorem c1_wants_idempotent (cfg : EngineCfg) (fuel : Nat) (s : String)
    (top : Bool) (st st' : EngineState)
    (hnp : cfg.no_prereqs = false)
    (h : wants cfg fuel s top st = .ok st') :
    s ∈ st'.did_steps ∧ ∀ (fuel₂ : Nat) (top₂ : Bool),
      wants cfg fuel₂ s top₂ st' = .ok st' := by
  have hmem : s ∈ st'.did_steps := by
    unfold wants at h
    rw [engine_want_unfold] at h
    split at h
    · rename_i hguard; rw [hnp] at hguard; simp at hguard
    · split at h
      · cases h; assumption
      · split at h
        · exact RunRes.noConfusion h
        · split at h
          · exact RunRes.noConfusion h
          · split at h
            · cases h; apply mem_markDone
            · rename_i hfalse
              exact absurd h (hfalse st')
  refine ⟨hmem, ?_⟩
  intro fuel₂ top₂
  unfold wants
  rw [engine_want_unfold]
  simp [hnp, hmem]

def c1cfg : EngineCfg :=
  { steps := [("c", .act "w" .done)], no_prereqs := false, withPrepare := true }

def c1st : EngineState := ⟨["c"], [.prepare, .enter "c", .act "w"]⟩

theorem c1_witness :
    "c" ∈ c1st.did_steps ∧ ∀ (fuel₂ : Nat) (top₂ : Bool),
      wants c1cfg fuel₂ "c" top₂ c1st = .ok c1st :=
  c1_wants_idempotent c1cfg 3 "c" true ⟨[], []⟩ c1st rfl (by decide)

/-! ## C8 — global prerequisite suppression -/

def c8cfg : EngineCfg :=
  { steps := [("a", .wantsStep "b" (.act "workA" .done)),
              ("b", .act "workB" .done)],
    no_prereqs := true, withPrepare := true }

def c8stA : EngineState := ⟨["a"], [.prepare, .enter "a", .act "workA"]⟩

def c8stB : EngineState :=
  ⟨["a", "b"], [.prepare, .enter "a", .act "workA", .enter "b", .act "workB"]⟩

/-- C8: with `--no-prereqs` set, a non-top-level request (`top=False`, i.e.
a request made only as another step's prerequisite) returns immediately:
the state — and with it the trace of handler-body invocations — is
unchanged, for every configuration and step.  Concretely, in a registry
where step `a`'s handler requests step `b`, a top-level request of `a`
runs `a`'s body but never enters `b`, and a subsequent top-level request
of `b` still runs `b`'s body. -/
theorem c8_suppression :
    (∀ (cfg : EngineCfg) (fuel : Nat) (s : String) (st : EngineState),
        cfg.no_prereqs = true → wants cfg fuel s false st = .ok st) ∧
    wants c8cfg 10 "a" true ⟨[], []⟩ = .ok c8stA ∧
    countEnter "b" c8stA.trace = 0 ∧
    wants c8cfg 10 "b" true c8stA = .ok c8stB ∧
    countEnter "b" c8stB.trace = 1 := by
  refine ⟨?_, by decide, by decide, by decide, by decide⟩
  intro cfg fuel s st h
  unfold wants
  rw [engine_want_unfold]
  simp [h]

theorem c8_witness :
    wants ⟨[], true, true⟩ 0 "x" false ⟨[], []⟩ = .ok ⟨[], []⟩ :=
  c8_suppression.1 ⟨[], true, true⟩ 0 "x" ⟨[], []⟩ rfl

end Samba

namespace Samba

/-! ## C3 — no cycle detection: a prerequisite cycle never terminates -/

/-- A registry with one step whose handler requests itself as a
prerequisite — the smallest prerequisite cycle. -/
def cycCfg : EngineCfg :=
  { steps := [("s", .wantsStep "s" .done)], no_prereqs := false, withPrepare := true }

/-- C3 counterexample: on the one-step cyclic registry, a request of the
step does not fail fast with any error at handler-invocation time — the
engine (which has no in-progress marker and no `CycleError` anywhere in
either script) recurses past depth 30 without producing any result. -/
theorem c3_counterexample :
    wants cycCfg 30 "s" true ⟨[], []⟩ = .outOfFuel := by decide

/-- C3 (amended): `Builder.wants` performs no cycle detection at all: if a
handler re-requests a step that is still in progress, the recursion never
terminates — for every recursion-depth bound the run exhausts it, and no
`CycleError` (no error of any kind) is ever raised.  Termination holds
only because the concrete registered step graph happens to be acyclic. -/
theorem c3_cycle_diverges (fuel : Nat) :
    ∀ (st : EngineState) (top : Bool), "s" ∉ st.did_steps →
      wants cycCfg fuel "s" top st = .outOfFuel := by
  induction fuel using Nat.strong_induction_on with
  | _ fuel ih =>
    intro st top h
    have hl : cycCfg.steps.lookup "s" = some (.wantsStep "s" .done) := rfl
    have hnp : cycCfg.no_prereqs = false := rfl
    match fuel with
    | 0 =>
      unfold wants
      rw [engine_want_unfold]
      simp [hnp, h, hl]
    | 1 =>
      unfold wants
      rw [engine_want_unfold]
      simp only [hnp, Bool.false_and, Bool.false_eq_true, if_false, h,
        if_neg, hl]
      rfl
    | n + 2 =>
      unfold wants
      rw [engine_want_unfold]
      simp only [hnp, Bool.false_and, Bool.false_eq_true, if_false, h,
        if_neg, hl]
      have hdid :
          "s" ∉ (addEvent (prepMaybe cycCfg st) (.enter "s")).did_steps := by
        rw [did_addEvent, did_prepMaybe]; exact h
      have hrec := ih n (by omega) (addEvent (prepMaybe cycCfg st) (.enter "s")) false hdid
      unfold wants at hrec
      rw [engine_run_wantsStep, hrec]

theorem c3_witness :
    wants cycCfg 7 "s" false ⟨[], [.prepare]⟩ = .outOfFuel :=
  c3_cycle_diverges 7 ⟨[], [.prepare]⟩ false (by decide)

/-! ## C5 — `prepare_env_once` runs more than once -/

/-- The default step chain of build-samba2.py: `bc_build` requests
`configure`, whose handler `bc_configure` requests `container`; each
handler then performs its own work. -/
def chainCfg : EngineCfg :=
  { steps := [("build", .wantsStep "configure" (.act "make" .done)),
              ("configure", .wantsStep "container" (.act "waf-configure" .done)),
              ("container", .act "image-inspect" .done)],
    no_prereqs := false, withPrepare := true }

/-- The state the chain run ends in. -/
def chainRes : EngineState :=
  ⟨["container", "configure", "build"],
   [.prepare, .enter "build", .prepare, .enter "configure", .prepare,
    .enter "container", .act "image-inspect", .act "waf-configure", .act "make"]⟩

/-- C5 counterexample: in the default `build` chain, `prepare_env_once`
runs three times, not once — the guard `if not self._did_steps` is still
true at each nested prerequisite request made before the first handler
completes. -/
theorem c5_counterexample :
    wants chainCfg 20 "build" true ⟨[], []⟩ = .ok chainRes ∧
    countPrepare chainRes.trace = 3 ∧ ¬ countPrepare chainRes.trace = 1 := by
  refine ⟨by decide, by decide, by decide⟩

/-- C5 (amended): `prepare_env_once` runs at the first step request and
again at every nested prerequisite request issued while no step has yet
completed (three times in the default `build` → `configure` → `container`
chain); only once some step has completed does it never run again. -/
theorem c5_prepare_behavior :
    (∀ (cfg : EngineCfg) (fuel : Nat) (call : Call) (st st' : EngineState),
        resState (engine cfg fuel call st) = some st' → st.did_steps ≠ [] →
        countPrepare st'.trace = countPrepare st.trace) ∧
    wants chainCfg 20 "build" true ⟨[], []⟩ = .ok chainRes ∧
    countPrepare chainRes.trace = 3 ∧
    countEnter "build" chainRes.trace = 1 ∧
    countEnter "configure" chainRes.trace = 1 ∧
    countEnter "container" chainRes.trace = 1 := by
  refine ⟨?_, by decide, by decide, by decide, by decide, by decide⟩
  intro cfg fuel call st st' h hne
  exact (prepare_stable cfg fuel call st st' h hne).1

/-! ## C10 — a handler exception leaves the step unmarked -/

/-- C10: if the handler body of step `s` raises, `Builder.wants`
propagates that exception with the builder state exactly as the handler
left it — in particular the engine performs no `self._did_steps.add(step)`,
so `s` is completed only if some sub-request completed it — and as long as
`s` is still not in the done-set, a later request of the same step invokes
the handler body again (the full invocation sequence: the prepare guard,
an `enter` event, the handler program, and the completion mark on
success). -/
theorem c10_handler_error (cfg : EngineCfg) (s : String) (prog : HProg)
    (fuel : Nat) (top : Bool) (st st₁ : EngineState) (e : String)
    (hnp : cfg.no_prereqs = false)
    (hl : cfg.steps.lookup s = some prog)
    (hdid : s ∉ st.did_steps)
    (hrun : engine cfg fuel (.run prog)
        (addEvent (prepMaybe cfg st) (.enter s)) = .err e st₁) :
    wants cfg (fuel + 1) s top st = .err e st₁ ∧
    (s ∉ st₁.did_steps → ∀ (fuel₂ : Nat) (top₂ : Bool),
      wants cfg (fuel₂ + 1) s top₂ st₁ =
        (match engine cfg fuel₂ (.run prog)
            (addEvent (prepMaybe cfg st₁) (.enter s)) with
         | .ok st₂ => .ok (markDone s st₂)
         | r => r)) := by
  constructor
  · unfold wants
    rw [engine_want_unfold]
    simp [hnp, hdid, hl, hrun]
  · intro h1 fuel₂ top₂
    unfold wants
    rw [engine_want_unfold]
    simp [hnp, h1, hl]

def c10cfg : EngineCfg :=
  { steps := [("f", .act "x" (.raiseExc "boom"))],
    no_prereqs := false, withPrepare := true }

def c10st1 : EngineState := ⟨[], [.prepare, .enter "f", .act "x"]⟩

theorem c10_witness :
    wants c10cfg 3 "f" true ⟨[], []⟩ = .err "boom" c10st1 ∧
    ("f" ∉ c10st1.did_steps → ∀ (fuel₂ : Nat) (top₂ : Bool),
      wants c10cfg (fuel₂ + 1) "f" top₂ c10st1 =
        (match engine c10cfg fuel₂ (.run (.act "x" (.raiseExc "boom")))
            (addEvent (prepMaybe c10cfg c10st1) (.enter "f")) with
         | .ok st₂ => .ok (markDone "f" st₂)
         | r => r)) :=
  c10_handler_error c10cfg "f" (.act "x" (.raiseExc "boom")) 2 true
    ⟨[], []⟩ c10st1 "boom" rfl rfl (by decide) (by decide)

end Samba

namespace Samba

/-! ## SHA-256

`sha256_digest` (build-samba.py lines 372-382) and `_sha256_digest`
(build-samba2.py lines 459-469) stream a file through `hashlib.sha256`.
The hash itself is the library function the scripts call; it is defined
here in full (FIPS 180-4) over byte lists so that the digest functions are
executable.  Bytes and words are `Nat`s reduced `% 2^32` where the
algorithm wraps. -/

def w32 (n : Nat) : Nat := n % 4294967296

def rotr (k x : Nat) : Nat := w32 ((x >>> k) ||| (x <<< (32 - k)))

def bnot32 (x : Nat) : Nat := x ^^^ 4294967295

def bigSigma0 (x : Nat) : Nat := (rotr 2 x ^^^ rotr 13 x) ^^^ rotr 22 x
def bigSigma1 (x : Nat) : Nat := (rotr 6 x ^^^ rotr 11 x) ^^^ rotr 25 x
def smallSigma0 (x : Nat) : Nat := (rotr 7 x ^^^ rotr 18 x) ^^^ (x >>> 3)
def smallSigma1 (x : Nat) : Nat := (rotr 17 x ^^^ rotr 19 x) ^^^ (x >>> 10)

def chFn (e f g : Nat) : Nat := (e &&& f) ^^^ (bnot32 e &&& g)
def majFn (a b c : Nat) : Nat := ((a &&& b) ^^^ (a &&& c)) ^^^ (b &&& c)

def sha256K : List Nat :=
  [1116352408, 1899447441, 3049323471, 3921009573,
   961987163, 1508970993, 2453635748, 2870763221,
   3624381080, 310598401, 607225278, 1426881987,
   1925078388, 2162078206, 2614888103, 3248222580,
   3835390401, 4022224774, 264347078, 604807628,
   770255983, 1249150122, 1555081692, 1996064986,
   2554220882, 2821834349, 2952996808, 3210313671,
   3336571891, 3584528711, 113926993, 338241895,
   666307205, 773529912, 1294757372, 1396182291,
   1695183700, 1986661051, 2177026350, 2456956037,
   2730485921, 2820302411, 3259730800, 3345764771,
   3516065817, 3600352804, 4094571909, 275423344,
   430227734, 506948616, 659060556, 883997877,
   958139571, 1322822218, 1537002063, 1747873779,
   1955562222, 2024104815, 2227730452, 2361852424,
   2428436474, 2756734187, 3204031479, 3329325298]

def sha256H0 : List Nat :=
  [1779033703, 3144134277, 1013904242, 2773480762,
   1359893119, 2600822924, 528734635, 1541459225]

/-- `k` big-endian bytes of `n` (most significant first). -/
def beBytes : Nat → Nat → List Nat
  | 0, _ => []
  | k + 1, n => beBytes k (n / 256) ++ [n % 256]

/-- Merkle–Damgård padding: `0x80`, zeros to 56 mod 64, then the 64-bit
big-endian bit length. -/
def padMessage (msg : List Nat) : List Nat :=
  let L := msg.length
  msg ++ [0x80] ++ List.replicate ((64 + 55 - (L % 64)) % 64) 0
      ++ beBytes 8 (8 * L)

/-- 4-byte big-endian words of a block. -/
def beWords : List Nat → List Nat
  | b0 :: b1 :: b2 :: b3 :: rest =>
    (((b0 * 256 + b1) * 256 + b2) * 256 + b3) :: beWords rest
  | _ => []

/-- Extend the 16-word schedule `k` more times. -/
def extendW : Nat → List Nat → List Nat
  | 0, w => w
  | k + 1, w =>
    extendW k (w ++ [w32 (smallSigma1 (w.getD (w.length - 2) 0)
      + w.getD (w.length - 7) 0
      + smallSigma0 (w.getD (w.length - 15) 0)
      + w.getD (w.length - 16) 0)])

def sha256Round (state : List Nat) (kw : Nat × Nat) : List Nat :=
  match state with
  | [a, b, c, d, e, f, g, h] =>
    let t1 := w32 (h + bigSigma1 e + chFn e f g + kw.1 + kw.2)
    let t2 := w32 (bigSigma0 a + majFn a b c)
    [w32 (t1 + t2), a, b, c, w32 (d + t1), e, f, g]
  | other => other

def compressBlock (hs : List Nat) (block : List Nat) : List Nat :=
  let fin := (sha256K.zip (extendW 48 (beWords block))).foldl sha256Round hs
  (hs.zip fin).map (fun p => w32 (p.1 + p.2))

/-- 64-byte blocks of a padded message (`fuel` bounds the iteration count;
`chunks64` supplies enough). -/
def chunks64F : Nat → List Nat → List (List Nat)
  | 0, _ => []
  | fuel + 1, l => if l.isEmpty then [] else l.take 64 :: chunks64F fuel (l.drop 64)

def chunks64 (l : List Nat) : List (List Nat) := chunks64F l.length l

def sha256Words (msg : List Nat) : List Nat :=
  (chunks64 (padMessage msg)).foldl compressBlock sha256H0

def hexDigitChars : List Char := "0123456789abcdef".data

def hexChar (n : Nat) : Char := hexDigitChars.getD (n % 16) '0'

def wordHexChars (w : Nat) : List Char :=
  [hexChar (w / 268435456), hexChar (w / 16777216), hexChar (w / 1048576),
   hexChar (w / 65536), hexChar (w / 4096), hexChar (w / 256),
   hexChar (w / 16), hexChar w]

/-- `hashlib.sha256(bytes).hexdigest()`: the lowercase hex digest. -/
def sha256hex (msg : List Nat) : String :=
  ⟨((sha256Words msg).map wordHexChars).flatten⟩

example : sha256hex [] =
    "e3b0c44298fc1c149afbf4c8996fb92427ae41e4649b934ca495991b7852b855" := by decide

example : sha256hex [0x61, 0x62, 0x63] =
    "ba7816bf8f01cfea414140de5dae2223b00361a396177a9cb410ff61f20015ad" := by decide

end Samba

namespace Samba

/-! ## The streaming digest functions -/

/-- The read loop shared by `sha256_digest` and `_sha256_digest`:

    buf = bytearray(bsize)
    while True:
        rlen = fh.readinto(buf)
        hh.update(buf[:rlen])
        if rlen < len(buf): break

One `readinto` on a regular file delivers `min bsize remaining` bytes, and
`hh.update` appends them to the hashed stream, so the loop accumulates the
file in `bsize`-sized chunks and stops at the first short read.  `fuel`
bounds the number of iterations only so the model is total: the callers
below always supply enough, and `readLoop_spec` holds for every
sufficient fuel.  (Python's loop has no such bound; with `bsize = 0` it
would never terminate, and the scripts always use the default 4096.) -/
def readLoop (bsize : Nat) : Nat → List Nat → List Nat → List Nat
  | 0, _, acc => acc
  | fuel + 1, content, acc =>
    let chunk := content.take bsize
    let acc2 := acc ++ chunk
    if chunk.length < bsize then acc2
    else readLoop bsize fuel (content.drop bsize) acc2

/-- All bytes the loop feeds into the hash, for a file whose content is
`content`. -/
def readFileBytes (content : List Nat) (bsize : Nat) : List Nat :=
  readLoop bsize (content.length + 1) content []

/-- `sha256_digest(path, bsize=4096)` of build-samba.py (lines 372-382):
stream the file and return `hh.hexdigest()`, the bare lowercase hex
digest.  The file's path is used only to open it; the digest is a function
of the content bytes alone. -/
def sha256_digest (content : List Nat) (bsize : Nat := 4096) : String :=
  sha256hex (readFileBytes content bsize)

/-- `_sha256_digest(path, bsize=4096)` of build-samba2.py (lines 459-469):
the same loop, but the function returns `"sha256:" + spec_digest`. -/
def _sha256_digest (content : List Nat) (bsize : Nat := 4096) : String :=
  "sha256:" ++ sha256hex (readFileBytes content bsize)

/-- Spec-side definition, for comparison (spec §4.2: "`digest(path)`:
stream the file in fixed-size blocks through a cryptographic hash; return
the lowercase hex encoding"): the lowercase hex SHA-256 of the file's
bytes. -/
def specContentDigest (content : List Nat) : String := sha256hex content

theorem readLoop_spec (bsize : Nat) :
    ∀ (fuel : Nat) (content acc : List Nat), content.length < fuel * bsize →
      readLoop bsize fuel content acc = acc ++ content := by
  intro fuel
  induction fuel with
  | zero => intro content acc h; simp at h
  | succ n ih =>
    intro content acc h
    simp only [readLoop]
    split
    · rename_i hlt
      have hcl : content.length < bsize := by
        rw [List.length_take] at hlt
        omega
      rw [List.take_of_length_le (le_of_lt hcl)]
    · rename_i hge
      rw [List.length_take] at hge
      rw [ih (content.drop bsize) (acc ++ content.take bsize) ?_]
      · rw [List.append_assoc, List.take_append_drop]
      · rw [List.length_drop]
        have hmul : (n + 1) * bsize = n * bsize + bsize := Nat.succ_mul n bsize
        omega

theorem readFileBytes_eq (content : List Nat) (bsize : Nat) (hb : 0 < bsize) :
    readFileBytes content bsize = content := by
  unfold readFileBytes
  have hlt : content.length < (content.length + 1) * bsize := by
    have h1 : content.length + 1 ≤ (content.length + 1) * bsize :=
      Nat.le_mul_of_pos_right (content.length + 1) hb
    omega
  rw [readLoop_spec bsize (content.length + 1) content [] hlt]
  simp

theorem hexChar_mem (n : Nat) : hexChar n ∈ hexDigitChars := by
  have h : n % 16 < 16 := Nat.mod_lt _ (by omega)
  unfold hexChar
  have h16 : n % 16 < hexDigitChars.length := h
  rw [List.getD_eq_getElem hexDigitChars '0' h16]
  exact List.getElem_mem h16

theorem sha256hex_chars (msg : List Nat) :
    ∀ ch ∈ (sha256hex msg).data, ch ∈ hexDigitChars := by
  intro ch hch
  simp only [sha256hex, String.data, List.mem_flatten, List.mem_map] at hch
  obtain ⟨l, ⟨w, hw, rfl⟩, hchl⟩ := hch
  simp only [wordHexChars, List.mem_cons, List.not_mem_nil, or_false] at hchl
  rcases hchl with rfl | rfl | rfl | rfl | rfl | rfl | rfl | rfl <;>
    exact hexChar_mem _

end Samba

namespace Samba

/-! ## C7 — content digest -/

/-- C7 counterexample: `_sha256_digest` (build-samba2.py) does not return
the lowercase hexadecimal SHA-256 of the file's bytes: on the empty file
it returns the digest with a `sha256:` prefix, which differs from the
lowercase hex SHA-256 of those bytes. -/
theorem c7_counterexample :
    _sha256_digest [] 4096 =
      "sha256:e3b0c44298fc1c149afbf4c8996fb92427ae41e4649b934ca495991b7852b855" ∧
    specContentDigest [] =
      "e3b0c44298fc1c149afbf4c8996fb92427ae41e4649b934ca495991b7852b855" ∧
    _sha256_digest [] 4096 ≠ specContentDigest [] := by
  refine ⟨by decide, by decide, by decide⟩

/-- C7 (amended): for every file content and every positive block size,
`sha256_digest` (build-samba.py) returns exactly the lowercase hex SHA-256
of the content — the block-streaming loop hashes precisely the content
bytes — while `_sha256_digest` (build-samba2.py) returns that same digest
prefixed with `"sha256:"`.  Both depend on the content alone (their only
input besides the block size), so equal content gives equal digests, every
digest character is a lowercase hex digit, and repeated calls agree. -/
theorem c7_digest_behavior (content : List Nat) (bsize : Nat) (hb : 0 < bsize) :
    sha256_digest content bsize = specContentDigest content ∧
    _sha256_digest content bsize = "sha256:" ++ specContentDigest content ∧
    (∀ c2 : List Nat, c2 = content →
      sha256_digest c2 bsize = sha256_digest content bsize) ∧
    (∀ ch ∈ (sha256_digest content bsize).data, ch ∈ hexDigitChars) := by
  have h1 : sha256_digest content bsize = specContentDigest content := by
    unfold sha256_digest specContentDigest
    rw [readFileBytes_eq content bsize hb]
  refine ⟨h1, ?_, ?_, ?_⟩
  · unfold _sha256_digest specContentDigest
    rw [readFileBytes_eq content bsize hb]
  · intro c2 hc2; rw [hc2]
  · rw [h1]; exact sha256hex_chars content

theorem c7_witness :
    sha256_digest [0x61] 4096 = specContentDigest [0x61] ∧
    _sha256_digest [0x61] 4096 = "sha256:" ++ specContentDigest [0x61] ∧
    (∀ c2 : List Nat, c2 = [0x61] →
      sha256_digest c2 4096 = sha256_digest [0x61] 4096) ∧
    (∀ ch ∈ (sha256_digest [0x61] 4096).data, ch ∈ hexDigitChars) :=
  c7_digest_behavior [0x61] 4096 (by omega)

end Samba

namespace Samba

/-! ## Command runner and dry-run (`_run`, `Context.user_command`,
build-samba2.py) -/

/-- The CLI flags `_run` and `user_command` consult. -/
structure RunCtx where
  dry_run : Bool
  debug : Bool
deriving DecidableEq, Repr

/-- Python exceptions crossing these functions: `calledProcessError` is
`subprocess.CalledProcessError` (a subclass of
`subprocess.SubprocessError`) raised by `subprocess.run(..., check=True)`
on a non-zero exit; `didNotExecute` is the script's own dry-run sentinel
`DidNotExecute` carrying the command; `commandFailed` is the script's
fatal `CommandFailed` wrapper. -/
inductive PyExc where
  | didNotExecute (cmd : String)
  | calledProcessError (returncode : Int)
  | commandFailed
deriving DecidableEq, Repr

/-- `subprocess.run(cmd, check=check)` once it executes: with `check`, a
non-zero exit status raises `CalledProcessError`; otherwise the completed
process (its exit status) is returned.  `worldExit` is the status the
external process returns. -/
def subprocess_run (check : Bool) (worldExit : Int) : Except PyExc Int :=
  if check ∧ worldExit ≠ 0 then .error (.calledProcessError worldExit)
  else .ok worldExit

/-- Effect of one `_run(cmd, check=…, ctx=…)` call: the `log.info` line it
writes, whether `subprocess.run` was reached, and the value returned or
exception raised. -/
instance exceptDecEq {e a : Type} [DecidableEq e] [DecidableEq a] :
    DecidableEq (Except e a) := fun x y =>
  match x, y with
  | .ok v, .ok w => if h : v = w then isTrue (by rw [h]) else isFalse (by simp [h])
  | .error v, .error w =>
    if h : v = w then isTrue (by rw [h]) else isFalse (by simp [h])
  | .ok _, .error _ => isFalse (by simp)
  | .error _, .ok _ => isFalse (by simp)

structure RunEffect where
  log : List String
  executed : Bool
  result : Except PyExc Int
deriving DecidableEq, Repr

/-- `_run` of build-samba2.py (lines 114-123): `ctx = kwargs.pop("ctx",
None)`; if a context was passed and it is in dry-run mode, log the
rendered command and raise `DidNotExecute(cmd)` without executing;
otherwise log and run the external process. -/
def _run : Option RunCtx → String → Bool → Int → RunEffect
  | some c, cmd, check, worldExit =>
    if c.dry_run then
      { log := ["(dry-run) Not Executing command: " ++ cmd],
        executed := false, result := .error (.didNotExecute cmd) }
    else
      { log := ["Executing command: " ++ cmd], executed := true,
        result := subprocess_run check worldExit }
  | none, cmd, check, worldExit =>
    { log := ["Executing command: " ++ cmd], executed := true,
      result := subprocess_run check worldExit }

/-- `Context.user_command` of build-samba2.py (lines 320-332), applied to
the outcome of its body: a `subprocess.SubprocessError` is re-raised
as-is when `--debug` is set and otherwise replaced by `CommandFailed`;
the dry-run sentinel `DidNotExecute` is swallowed (`pass`); anything else
propagates. -/
def user_command {α : Type} (ctx : RunCtx) (body : Except PyExc α) :
    Except PyExc (Option α) :=
  match body with
  | .ok a => .ok (some a)
  | .error (.calledProcessError rc) =>
    if ctx.debug then .error (.calledProcessError rc)
    else .error .commandFailed
  | .error (.didNotExecute _) => .ok none
  | .error e => .error e

/-- C4 counterexample: with dry-run off and `--debug` set, a checked
command exiting 1 surfaces through `user_command` as the raw
`CalledProcessError`, not as a `CommandFailed` error. -/
theorem c4_counterexample :
    user_command ⟨false, true⟩ (_run (some ⟨false, true⟩) "make" true 1).result
      = .error (.calledProcessError 1) ∧
    user_command ⟨false, true⟩ (_run (some ⟨false, true⟩) "make" true 1).result
      ≠ .error PyExc.commandFailed := by
  refine ⟨by decide, by decide⟩

/-- C4 (amended): with the dry-run flag set, every command issued through
`_run` with the context is logged in rendered form, the external process
is not executed, the distinguished `DidNotExecute` signal is raised, and
`user_command` swallows it (`.ok none`, not a failure).  Outside dry-run
mode a non-zero exit of a checked command surfaces as `CommandFailed`
when the debug flag is unset; with `--debug` set, `user_command`
re-raises the underlying `CalledProcessError` unchanged instead. -/
theorem c4_dry_run_behavior :
    (∀ (c : RunCtx) (cmd : String) (check : Bool) (worldExit : Int),
        c.dry_run = true →
        _run (some c) cmd check worldExit =
          { log := ["(dry-run) Not Executing command: " ++ cmd],
            executed := false, result := .error (.didNotExecute cmd) } ∧
        user_command c (_run (some c) cmd check worldExit).result = .ok none) ∧
    (∀ (c : RunCtx) (cmd : String) (worldExit : Int),
        c.dry_run = false → c.debug = false → worldExit ≠ 0 →
        user_command c (_run (some c) cmd true worldExit).result
          = .error .commandFailed) ∧
    (∀ (c : RunCtx) (cmd : String) (worldExit : Int),
        c.dry_run = false → c.debug = true → worldExit ≠ 0 →
        user_command c (_run (some c) cmd true worldExit).result
          = .error (.calledProcessError worldExit)) := by
  refine ⟨?_, ?_, ?_⟩
  · intro c cmd check worldExit hdry
    have he : _run (some c) cmd check worldExit =
        { log := ["(dry-run) Not Executing command: " ++ cmd],
          executed := false, result := .error (.didNotExecute cmd) } := by
      show (if c.dry_run then _ else _) = _
      rw [hdry]; simp
    exact ⟨he, by rw [he]; rfl⟩
  · intro c cmd worldExit hdry hdebug hx
    have he : _run (some c) cmd true worldExit =
        { log := ["Executing command: " ++ cmd], executed := true,
          result := .error (.calledProcessError worldExit) } := by
      show (if c.dry_run then _ else _) = _
      rw [hdry]
      simp only [Bool.false_eq_true, if_false]
      unfold subprocess_run
      rw [if_pos ⟨rfl, hx⟩]
    rw [he]
    unfold user_command
    rw [hdebug]
    simp
  · intro c cmd worldExit hdry hdebug hx
    have he : _run (some c) cmd true worldExit =
        { log := ["Executing command: " ++ cmd], executed := true,
          result := .error (.calledProcessError worldExit) } := by
      show (if c.dry_run then _ else _) = _
      rw [hdry]
      simp only [Bool.false_eq_true, if_false]
      unfold subprocess_run
      rw [if_pos ⟨rfl, hx⟩]
    rw [he]
    unfold user_command
    rw [hdebug]
    simp

theorem c4_witness :
    _run (some ⟨true, false⟩) "rpmbuild" true 0 =
      { log := ["(dry-run) Not Executing command: rpmbuild"],
        executed := false, result := .error (.didNotExecute "rpmbuild") } ∧
    user_command ⟨true, false⟩
      (_run (some ⟨true, false⟩) "rpmbuild" true 0).result = .ok none :=
  c4_dry_run_behavior.1 ⟨true, false⟩ "rpmbuild" true 0 rfl

end Samba

namespace Samba

/-! ## C2 — the spec-digest cache check of `cmd_build_srpm`
(build-samba.py lines 509-535) -/

/-- A Python value, as far as the digest check needs to distinguish: the
image-annotation dict (string keys and values) or some other object. -/
inductive PyVal where
  | dict (entries : List (String × String))
  | other
deriving DecidableEq, Repr

def ANN_BC : String := "us.asynchrono.samba-build-container"

def ANN_SPEC_DIGEST : String := "us.asynchrono.samba-spec-digest"

/-- The module-level names of build-samba.py — its globals: the imported
modules and every top-level constant, class and function.  The name
`img_annotations` is never assigned inside `cmd_build_srpm` (so Python
compiles its occurrences there as *global* references), and it is not
assigned at module level either, so evaluating it raises `NameError`.
`BuildahBackend.get_annotations`, which would produce the annotation
dict, is defined (lines 348-353) but never called anywhere in the
script. -/
def buildSambaGlobals : List String :=
  ["argparse", "enum", "hashlib", "json", "logging", "os", "pathlib",
   "shlex", "subprocess", "sys", "log", "BASE_IMAGE", "BUILDAH", "ANN_BC",
   "ANN_SPEC_DIGEST", "_host_path", "_working_image", "_arg_str",
   "_cmdstr", "_run", "Steps", "ImageSource", "ImageSourceAction",
   "ArgumentParser", "Builder", "Context", "ContainerVolume", "RunTask",
   "CopyTask", "_DNFTask", "DNFInstallTask", "DNFBuildDepTask",
   "BuildahBackend", "ImagePaths", "sha256_digest", "_parse_os_release",
   "build_container", "get_container", "_version_read", "cmd_build_srpm",
   "cmd_build_rpm", "cmd_configure", "cmd_make", "cmd_other", "parse_cli",
   "_src_root", "_setup_logging", "main"]

/-- Name resolution as `cmd_build_srpm`'s digest check sees it: all module
globals are bound (their values do not matter to the check, so they are
`.other`); any other name — in particular `img_annotations` — is
undefined. -/
def globalsEnv : String → Option PyVal :=
  fun n => if n ∈ buildSambaGlobals then some .other else none

/-- The evident intended environment: `img_annotations` bound to the
annotation dict read back from the image (what
`builder.get_annotations(...)` would have returned). -/
def envWithAnnotations (m : List (String × String)) : String → Option PyVal :=
  fun n => if n = "img_annotations" then some (.dict m) else globalsEnv n

/-- Python's `key in name`: resolve `name`, then test dict key
membership; `in` on a non-dict of this model is a TypeError. -/
def pyIn (env : String → Option PyVal) (key : String) (name : String) :
    Except String Bool :=
  match env name with
  | none => .error ("NameError: name " ++ name ++ " is not defined")
  | some (.dict m) => .ok (m.lookup key).isSome
  | some .other => .error "TypeError"

/-- Python's `name[key]` on the resolved dict. -/
def pySubscript (env : String → Option PyVal) (name : String) (key : String) :
    Except String String :=
  match env name with
  | none => .error ("NameError: name " ++ name ++ " is not defined")
  | some (.dict m) =>
    match m.lookup key with
    | some v => .ok v
    | none => .error "KeyError"
  | some .other => .error "TypeError"

/-- Outcome of the digest-check block: fall through (the step goes on to
reuse the environment and run the build commands) or an exception. -/
inductive CheckOutcome where
  | proceed
  | exc (e : String)
deriving DecidableEq, Repr

/-- The digest-check block of `cmd_build_srpm` (build-samba.py lines
525-535), with Python's left-to-right short-circuiting `and`:

    check_digest = (ctx.is_default_spec_file
                    and ANN_BC in img_annotations
                    and ANN_SPEC_DIGEST in img_annotations)
    if check_digest:
        log.info("Checking spec file digest matches")
        prefixed_digest = f"sha256:{spec_digest}"
        if img_annotations[ANN_SPEC_DIGEST] != prefixed_digest:
            raise ValueError("spec digest mismatch: ...")

`env` resolves the free name `img_annotations`, `is_default` is
`ctx.is_default_spec_file`, and `spec_digest` the freshly computed hex
digest of the spec file (line 514). -/
def srpm_digest_check (env : String → Option PyVal) (is_default : Bool)
    (spec_digest : String) : CheckOutcome :=
  let check_digest : Except String Bool :=
    if !is_default then .ok false
    else
      match pyIn env ANN_BC "img_annotations" with
      | .error e => .error e
      | .ok false => .ok false
      | .ok true => pyIn env ANN_SPEC_DIGEST "img_annotations"
  match check_digest with
  | .error e => .exc e
  | .ok false => .proceed
  | .ok true =>
    match pySubscript env "img_annotations" ANN_SPEC_DIGEST with
    | .error e => .exc e
    | .ok v =>
      if v ≠ "sha256:" ++ spec_digest then .exc "ValueError: spec digest mismatch"
      else .proceed

/-- C2 (code bug, evaluated): with the default spec file the digest check
of `cmd_build_srpm` raises `NameError` — `img_annotations` is an
undefined name, because the call to `get_annotations` that should bind it
is missing — so the claimed absent/equal/unequal trichotomy never runs.
With a custom spec file the conjunction short-circuits to `False` and the
block is skipped.  Under the evident intended binding of
`img_annotations` to the image's annotation dict, the trichotomy would
hold: missing marker or digest annotation → proceed (reuse allowed);
digest annotation equal to `sha256:<fresh digest>` → proceed; unequal →
the digest-mismatch error. -/
theorem c2_digest_check_name_error :
    (∀ d : String, srpm_digest_check globalsEnv true d
        = .exc "NameError: name img_annotations is not defined") ∧
    (∀ d : String, srpm_digest_check globalsEnv false d = .proceed) ∧
    (∀ d : String, srpm_digest_check (envWithAnnotations []) true d = .proceed) ∧
    (∀ d : String,
        srpm_digest_check
          (envWithAnnotations [(ANN_BC, "true"), (ANN_SPEC_DIGEST, "sha256:" ++ d)])
          true d = .proceed) ∧
    (∀ (d v : String), v ≠ "sha256:" ++ d →
        srpm_digest_check
          (envWithAnnotations [(ANN_BC, "true"), (ANN_SPEC_DIGEST, v)])
          true d = .exc "ValueError: spec digest mismatch") := by
  refine ⟨?_, ?_, ?_, ?_, ?_⟩
  · intro d; rfl
  · intro d; rfl
  · intro d; rfl
  · intro d
    unfold srpm_digest_check pyIn pySubscript envWithAnnotations
    simp [List.lookup, ANN_BC, ANN_SPEC_DIGEST]
  · intro d v hv
    unfold srpm_digest_check pyIn pySubscript envWithAnnotations
    simp [List.lookup, ANN_BC, ANN_SPEC_DIGEST, hv]

end Samba

namespace Samba

/-! ## C6 — source-rpm discovery -/

inductive DiscErr where
  | tooManyMatching   -- RuntimeError("too many matching source rpms …"), build-samba2.py line 744
  | assertionFailed   -- `assert paths` failing after the rebuild, build-samba2.py line 753
  | tooManySrpms      -- ValueError("too many srpms found"), build-samba.py line 607
deriving DecidableEq, Repr

/-- Outcome of `bc_build_rpm`'s discovery: how many times the
`SOURCE_RPM` prerequisite step was requested, and the chosen path or the
error. -/
structure Discovery where
  triggeredSourceRpm : Nat
  result : Except DiscErr String
deriving DecidableEq, Repr

/-- `bc_build_rpm`'s artifact discovery (build-samba2.py lines 735-755):

    res = _run(check_cmd, check=False, capture_output=True)   # find in the container
    paths = res.stdout.decode("utf8").splitlines()
    if len(paths) > 1:
        raise RuntimeError("too many matching source rpms …")
    if not paths:
        ctx.build.wants(Steps.SOURCE_RPM, ctx)                # rebuild once
        paths = glob.glob(srpm_glob)                          # host-side re-search
        assert paths
    srpm_path = paths[0]

`initialFind` is the container `find` listing, `globAfterBuild` the
host-side `glob.glob` listing after the rebuild. -/
def bc_build_rpm_discover (initialFind globAfterBuild : List String) :
    Discovery :=
  if initialFind.length > 1 then ⟨0, .error .tooManyMatching⟩
  else
    let rebuilt := initialFind.isEmpty
    let paths := if rebuilt then globAfterBuild else initialFind
    match paths with
    | [] => ⟨if rebuilt then 1 else 0, .error .assertionFailed⟩
    | p :: _ => ⟨if rebuilt then 1 else 0, .ok p⟩

/-- `cmd_build_rpm`'s discovery (build-samba.py lines 600-608): the
`SOURCE_RPM` prerequisite has already run unconditionally at the top of
the handler (line 595); then any match count other than exactly one —
including zero — raises `ValueError("too many srpms found")`, with no
retry. -/
def cmd_build_rpm_discover (found : List String) : Except DiscErr String :=
  match found with
  | [p] => .ok p
  | _ => .error .tooManySrpms

/-- C6 counterexample: when the initial search finds nothing and the
rebuilt source-rpm step leaves two files matching the glob, the repeated
search returns both and the code silently uses the first candidate
instead of failing with an ambiguity error. -/
theorem c6_counterexample :
    bc_build_rpm_discover [] ["samba-4.21-1.src.rpm", "samba-4.21-2.src.rpm"]
      = ⟨1, .ok "samba-4.21-1.src.rpm"⟩ := by decide

/-- C6 (amended): in build-samba2.py, exactly one initial match is
returned and used with no rebuild; more than one initial match fails
fatally; zero matches trigger the source-rpm prerequisite exactly once
followed by exactly one repeated (host-side glob) search, failing fatally
(`assert paths`) if still empty — but if the repeated search finds
several candidates the first is used with no ambiguity check.  In
build-samba.py the prerequisite runs unconditionally before the single
search and any count other than one, including zero, is an immediate
fatal error with no retry. -/
theorem c6_discovery_cardinality :
    (∀ (p : String) (g : List String),
        bc_build_rpm_discover [p] g = ⟨0, .ok p⟩) ∧
    (∀ (p q : String) (rest g : List String),
        bc_build_rpm_discover (p :: q :: rest) g
          = ⟨0, .error .tooManyMatching⟩) ∧
    bc_build_rpm_discover [] [] = ⟨1, .error .assertionFailed⟩ ∧
    (∀ (p : String) (rest : List String),
        bc_build_rpm_discover [] (p :: rest) = ⟨1, .ok p⟩) ∧
    cmd_build_rpm_discover [] = .error .tooManySrpms ∧
    (∀ p : String, cmd_build_rpm_discover [p] = .ok p) ∧
    (∀ (p q : String) (rest : List String),
        cmd_build_rpm_discover (p :: q :: rest) = .error .tooManySrpms) := by
  refine ⟨?_, ?_, by decide, ?_, by decide, ?_, ?_⟩
  · intro p g
    unfold bc_build_rpm_discover
    simp
  · intro p q rest g
    unfold bc_build_rpm_discover
    have hl : (p :: q :: rest).length > 1 := by simp
    rw [if_pos hl]
  · intro p rest
    unfold bc_build_rpm_discover
    simp
  · intro p; rfl
  · intro p q rest; rfl

/-! ## C9 — port requests in `_container_cmd`
(build-samba2.py lines 164-170) -/

/-- A value in the `ports` list handed to `_container_cmd`. -/
inductive PortReq where
  | str (s : String)   -- a literal "host:container" publish spec
  | int (n : Int)      -- a single port number
  | other              -- any other Python value
deriving DecidableEq, Repr

/-- The port loop of `_container_cmd`:

    for port_req in (ports or []):
        if isinstance(port_req, str):
            cmd.append(f'--publish={port_req}')
        if isinstance(port_req, int):
            cmd.append(f'--publish={port_req}:{port_req}')
        else:
            raise ValueError('invalid port type: {port_req!r}')

The second `if` is not an `elif`: after a string appends its flag, the
`isinstance(port_req, int)` test is false and its `else` raises, so every
string port request aborts command construction (the appended flag dies
with the local `cmd` list, which `Except.error` models).  Only ints
survive an iteration.  The raised message is the literal text of the
string — it is not an f-string, so the placeholder is not interpolated. -/
def portFlags : List PortReq → Except String (List String)
  | [] => .ok []
  | .str _ :: _ => .error "ValueError: invalid port type: \x7bport_req!r\x7d"
  | .int n :: rest =>
    (portFlags rest).map (fun fs => ("--publish=" ++ toString n ++ ":" ++ toString n) :: fs)
  | .other :: _ => .error "ValueError: invalid port type: \x7bport_req!r\x7d"

/-- C9 (code bug, evaluated): a literal "host:container" string port
request raises `ValueError` — the missing `elif` makes the int-branch's
`else` fire for every non-int — where the claim (and spec §4.3) say it
must be accepted; a single integer port is published to the identical
host and container port as claimed; any other value raises the
configuration error as claimed. -/
theorem c9_port_loop :
    portFlags [.str "8080:80"]
      = .error "ValueError: invalid port type: \x7bport_req!r\x7d" ∧
    (∀ s : String, portFlags [.str s]
      = .error "ValueError: invalid port type: \x7bport_req!r\x7d") ∧
    portFlags [.int 8080] = .ok ["--publish=8080:8080"] ∧
    (∀ n : Int, portFlags [.int n]
      = .ok ["--publish=" ++ toString n ++ ":" ++ toString n]) ∧
    portFlags [.other]
      = .error "ValueError: invalid port type: \x7bport_req!r\x7d" := by
  refine ⟨rfl, fun s => rfl, by decide, fun n => rfl, rfl⟩

end Samba
